import Mathlib

/-!
Verification development for `src/vdp_scanner.py` of mcdonnnj/vdp-scanner-docker.

The core under study is:
* `VdpScanner.check_for_vdp` — a multi-stage fallback chain of fetch attempts
  (HTTPS with TLS verification, HTTPS without verification, plain HTTP),
  implemented in Python as nested try/except handlers over the exception
  classes of the `requests` library; and
* `VdpScanner.add_domain_result` — the aggregator folding one domain result
  into an ordered list of rows and a per-agency counter table kept in a
  `defaultdict`.

The fetch client (`UrlHasher.hash_url`) is an external collaborator; it is
embedded as an arbitrary function from a URL and a TLS-verification flag to
either a `UrlResult` or one of the failure kinds the checker dispatches on.
Side effects (calls to `logging.warning` / `logging.debug`, and the fetch
calls themselves) are made explicit: the embedded checker also returns the
list of log events it emitted and the list of `hash_url` calls it performed,
in order.
-/

/-- Failure kinds of a `hash_url` call, as the checker's except-clauses
distinguish them: `requests.exceptions.SSLError`,
`requests.exceptions.ConnectionError`, `requests.exceptions.Timeout`, and
any other exception. -/
inductive FetchError where
  | tls : FetchError
  | conn : FetchError
  | timeout : FetchError
  | other : FetchError
deriving DecidableEq, Repr

/-- The fields of `hash_http_content.UrlResult` that `check_for_vdp` reads:
the final visited URL, whether a redirect occurred, the HTTP status, and the
content hash. -/
structure UrlResult where
  visited_url : String
  is_redirect : Bool
  status : Nat
  hash : String
deriving DecidableEq, Repr

/-- A fetch client: `hash_url(url, verify)`.  A call either returns a
`UrlResult` or fails with one of the `FetchError` kinds. -/
def FetchClient : Type := String → Bool → Except FetchError UrlResult

/-- One logging call of the checker, tagged by call site.  The first three
are `logging.warning` calls; the last two are the `logging.debug` calls of
`_log_vdp_failure`. -/
inductive LogEvent where
  | warnFallbackUnverified : String → LogEvent
  | warnFallbackHttp : String → LogEvent
  | warnRetrieveFailure : String → LogEvent
  | debugCaughtType : FetchError → LogEvent
  | debugErrMessage : FetchError → LogEvent
deriving DecidableEq, Repr

/-- Whether a log event was emitted at `logging.warning` level. -/
def LogEvent.isWarningLevel : LogEvent → Bool
  | .warnFallbackUnverified _ => true
  | .warnFallbackHttp _ => true
  | .warnRetrieveFailure _ => true
  | .debugCaughtType _ => false
  | .debugErrMessage _ => false

/-- Whether a log event is the warning emitted by `_log_vdp_failure`
("Unable to retrieve hash for ..."). -/
def LogEvent.isRetrieveFailure : LogEvent → Bool
  | .warnRetrieveFailure _ => true
  | _ => false

/-- `VdpScanner._log_vdp_failure(domain, err)`: one warning naming the
domain, then two debug lines with the exception type and the exception. -/
def log_vdp_failure (domain : String) (err : FetchError) : List LogEvent :=
  [LogEvent.warnRetrieveFailure domain, LogEvent.debugCaughtType err,
   LogEvent.debugErrMessage err]

/-- The HTTPS candidate URL built at the top of `check_for_vdp`:
`urlunparse(urlparse(f"https://{domain}/vulnerability-disclosure-policy"))`.
`urlunparse ∘ urlparse` is the identity on such URL strings. -/
def httpsUrl (domain : String) : String :=
  "https://" ++ domain ++ "/vulnerability-disclosure-policy"

/-- The plain-HTTP URL `urlunparse(url._replace(scheme="http"))`: the same
host and path with the scheme swapped. -/
def httpUrl (domain : String) : String :=
  "http://" ++ domain ++ "/vulnerability-disclosure-policy"

/-- The try/except chain of `check_for_vdp` (lines 113-151): the value of
the local `result : Optional[UrlResult]` after all handlers have run,
together with the log events emitted and the `hash_url` calls performed
(as url/verify pairs, in order).

Handler dispatch follows Python's first-matching-clause rule.  At the outer
level the clauses are `except SSLError`, `except (ConnectionError, Timeout)`,
`except Exception`, in that order.  Inside the SSLError handler the clauses
are `except (ConnectionError, Timeout)`, `except Exception`; note that
`requests.exceptions.SSLError` is a subclass of
`requests.exceptions.ConnectionError`, so a TLS failure of the unverified
attempt is caught by that inner `(ConnectionError, Timeout)` clause as well.
A bare `hash_url(url)` call uses the default `verify=True`. -/
def vdp_chain (hash_url : FetchClient) (domain : String) :
    Option UrlResult × List LogEvent × List (String × Bool) :=
  let url := httpsUrl domain
  -- Try with HTTPS first
  match hash_url url true with
  | Except.ok r => (some r, [], [(url, true)])
  -- If there is a TLS issue, try running it without verifying
  | Except.error FetchError.tls =>
    -- logging.warning("Falling back to HTTPS without TLS verification ...")
    match hash_url url false with
    | Except.ok r =>
        (some r, [LogEvent.warnFallbackUnverified domain], [(url, true), (url, false)])
    -- except (ConnectionError, Timeout) — also catches SSLError (subclass)
    | Except.error FetchError.conn | Except.error FetchError.timeout
    | Except.error FetchError.tls =>
      -- logging.warning("Falling back to HTTP ...")
      match hash_url (httpUrl domain) true with
      | Except.ok r =>
          (some r,
           [LogEvent.warnFallbackUnverified domain, LogEvent.warnFallbackHttp domain],
           [(url, true), (url, false), (httpUrl domain, true)])
      | Except.error e =>
          (none,
           [LogEvent.warnFallbackUnverified domain, LogEvent.warnFallbackHttp domain]
             ++ log_vdp_failure domain e,
           [(url, true), (url, false), (httpUrl domain, true)])
    -- The except of last resort
    | Except.error FetchError.other =>
        (none,
         [LogEvent.warnFallbackUnverified domain]
           ++ log_vdp_failure domain FetchError.other,
         [(url, true), (url, false)])
  -- Fallback to HTTP in case there is no HTTPS for the given domain
  | Except.error FetchError.conn | Except.error FetchError.timeout =>
    -- logging.warning("Falling back to HTTP ...")
    match hash_url (httpUrl domain) true with
    | Except.ok r =>
        (some r, [LogEvent.warnFallbackHttp domain], [(url, true), (httpUrl domain, true)])
    | Except.error e =>
        (none, [LogEvent.warnFallbackHttp domain] ++ log_vdp_failure domain e,
         [(url, true), (httpUrl domain, true)])
  -- The except of last resort
  | Except.error FetchError.other =>
      (none, log_vdp_failure domain FetchError.other, [(url, true)])

/-- The all-empty/false outcome `("", False, False, "")` returned when no
stage produced a result. -/
def emptyOutcome : String × Bool × Bool × String := ("", false, false, "")

/-- The status mapping at the tail of `check_for_vdp` (lines 156-159):
status exactly 200 yields `(visited_url, is_redirect, True, hash)`, any
other status yields `(visited_url, is_redirect, False, "")`. -/
def statusOutcome (r : UrlResult) : String × Bool × Bool × String :=
  if r.status = 200 then (r.visited_url, r.is_redirect, true, r.hash)
  else (r.visited_url, r.is_redirect, false, "")

/-- `check_for_vdp` with its effects made explicit: the returned 4-tuple,
the log events emitted and the `hash_url` calls performed.  Lines 153-159 of
the source: `if not result: return ("", False, False, "")`, then the status
mapping. -/
def check_for_vdp_run (hash_url : FetchClient) (domain : String) :
    (String × Bool × Bool × String) × List LogEvent × List (String × Bool) :=
  match vdp_chain hash_url domain with
  | (none, log, calls) => (emptyOutcome, log, calls)
  | (some r, log, calls) => (statusOutcome r, log, calls)

/-- `VdpScanner.check_for_vdp(domain)`: just the returned 4-tuple
`(visited_url, is_redirect, vdp_present, vdp_hash)`. -/
def check_for_vdp (hash_url : FetchClient) (domain : String) :
    String × Bool × Bool × String :=
  (check_for_vdp_run hash_url domain).1

/-- The `DomainResult` NamedTuple: the four input fields of a domain record
followed by the four fields of a check outcome. -/
structure DomainResult where
  domain : String
  agency : String
  organization : String
  security_contact : String
  visited_url : String
  is_redirect : Bool
  vdp_present : Bool
  vdp_hash : String
deriving DecidableEq, Repr

/-- `VdpScanner.MISSING_SECURITY_CONTACT`: the sentinel for a missing
security contact in a GSA formatted domain list CSV. -/
def MISSING_SECURITY_CONTACT : String := "(blank)"

/-- One agency's row of counters.  The fields correspond, in order, to the
keys `"Total Domains"`, `"Domains with Security Contact Listed"`,
`"Domains with Organization Listed"`,
`"Domains with Matching Organization and Agency"`,
`"Domains with Published VDP"` of the per-agency dict.  Python integers are
embedded as `Int`. -/
structure AgencyTally where
  total_domains : Int
  security_contact_listed : Int
  organization_listed : Int
  matching_org_agency : Int
  published_vdp : Int
deriving DecidableEq, Repr

/-- The zeroed counter dict `{k: 0 for k in self.agency_csv_header[1:]}`
that the `defaultdict` factory produces for a fresh agency key. -/
def zeroTally : AgencyTally := ⟨0, 0, 0, 0, 0⟩

/-- The mutable state of a `VdpScanner` that `add_domain_result` touches:
the ordered list of domain rows (each row is the `DomainResult` zipped with
the fixed `domain_csv_header`, so the row is determined by the
`DomainResult` itself) and the `agency_results` defaultdict, embedded as an
insertion-ordered association list. -/
structure VdpScanner where
  domain_results : List DomainResult
  agency_results : List (String × AgencyTally)
deriving DecidableEq, Repr

/-- A fresh scanner, as after `__init__`: no domain rows, empty defaultdict. -/
def initScanner : VdpScanner := ⟨[], []⟩

/-- Reading `agency_results[a]` from the defaultdict: the stored entry, or
the zeroed dict for an absent key. -/
def lookupTally (l : List (String × AgencyTally)) (a : String) : AgencyTally :=
  match l with
  | [] => zeroTally
  | (k, v) :: rest => if k = a then v else lookupTally rest a

/-- Writing the (possibly freshly created) entry of key `a`: replace an
existing entry in place, or append the key at the end, matching
`defaultdict` insertion order. -/
def setTally (l : List (String × AgencyTally)) (a : String) (t : AgencyTally) :
    List (String × AgencyTally) :=
  match l with
  | [] => [(a, t)]
  | (k, v) :: rest => if k = a then (k, t) :: rest else (k, v) :: setTally rest a t

/-- The five guarded increments of `add_domain_result` (lines 184-203),
applied to the tally of `result.agency`:
`"Total Domains" += 1` unconditionally;
`"Domains with Security Contact Listed" += 1` if `result.security_contact`
is truthy (non-empty) and differs from `MISSING_SECURITY_CONTACT`;
`"Domains with Organization Listed" += 1` if `result.organization` is
truthy (non-empty);
`"Domains with Matching Organization and Agency" += 1` if
`result.agency == result.organization`;
`"Domains with Published VDP" += 1` if `result.vdp_present`. -/
def updateTally (result : DomainResult) (t : AgencyTally) : AgencyTally :=
  { total_domains := t.total_domains + 1
    security_contact_listed := t.security_contact_listed +
      (if result.security_contact ≠ "" ∧
          result.security_contact ≠ MISSING_SECURITY_CONTACT then 1 else 0)
    organization_listed := t.organization_listed +
      (if result.organization ≠ "" then 1 else 0)
    matching_org_agency := t.matching_org_agency +
      (if result.agency = result.organization then 1 else 0)
    published_vdp := t.published_vdp +
      (if result.vdp_present then 1 else 0) }

/-- `VdpScanner.add_domain_result(result)`: append the row to
`domain_results`, then apply the five guarded increments to the
`agency_results` entry of `result.agency` (created zeroed on first
access). -/
def add_domain_result (st : VdpScanner) (result : DomainResult) : VdpScanner :=
  { domain_results := st.domain_results ++ [result]
    agency_results := setTally st.agency_results result.agency
      (updateTally result (lookupTally st.agency_results result.agency)) }

/-- A run of the aggregator: fold `add_domain_result` over a finite sequence
of domain results, starting from a fresh scanner. -/
def runAdds (results : List DomainResult) : VdpScanner :=
  results.foldl add_domain_result initScanner

/-- A fetch client whose every call fails with a connection error: models a
fully unreachable domain. -/
def allFailClient : FetchClient := fun _ _ => Except.error FetchError.conn

/-- A successful fetch result with status 200 (Scenario A of the spec). -/
def goodResult : UrlResult :=
  ⟨"https://example.gov/vulnerability-disclosure-policy", false, 200, "abc123"⟩

/-- A fetch client whose every call succeeds with `goodResult`. -/
def goodClient : FetchClient := fun _ _ => Except.ok goodResult

/-- A fetch client returning a status-200 result whose visited URL is the
empty string. -/
def badUrlClient : FetchClient := fun _ _ => Except.ok ⟨"", false, 200, "h"⟩

/-- A fetch client that fails with a TLS error whenever verification is on
and succeeds without verification. -/
def tlsThenOkClient : FetchClient := fun _ v =>
  if v then Except.error FetchError.tls
  else Except.ok ⟨"https://nocert.gov/vulnerability-disclosure-policy", false, 200, "h2"⟩

/-- A fetch client that fails with a connection error on every URL except
the plain-HTTP URL of `plain.gov`, where it succeeds with status 404. -/
def connFallbackClient : FetchClient := fun url _ =>
  if url = httpUrl "plain.gov" then
    Except.ok ⟨"http://plain.gov/vulnerability-disclosure-policy", false, 404, "h4"⟩
  else Except.error FetchError.conn

/-- A sample domain record row with a real security contact. -/
def sampleRec : DomainResult :=
  ⟨"d.gov", "ACME", "ACME", "vdp@acme.gov", "u", false, true, "h"⟩

/-- A domain record row whose agency and organization are both the empty
string. -/
def emptyAgencyRec : DomainResult :=
  ⟨"empty.gov", "", "", "", "", false, false, ""⟩

/-! ### Helper lemmas -/

/-- The two URL builders never produce the same string (the schemes have
different lengths). -/
theorem httpUrl_ne_httpsUrl (d : String) : httpUrl d ≠ httpsUrl d := by
  intro h
  have hl := congrArg String.length h
  have h7 : ("http://" : String).length = 7 := rfl
  have h8 : ("https://" : String).length = 8 := rfl
  simp only [httpUrl, httpsUrl, String.length_append, h7, h8] at hl
  omega

/-- Reading back the entry just written to the defaultdict. -/
theorem lookupTally_setTally_self (l : List (String × AgencyTally)) (a : String)
    (t : AgencyTally) : lookupTally (setTally l a t) a = t := by
  induction l with
  | nil => simp [setTally, lookupTally]
  | cons hd tl ih =>
    obtain ⟨k, v⟩ := hd
    by_cases hk : k = a
    · simp [setTally, lookupTally, hk]
    · simp [setTally, lookupTally, hk, ih]

/-- Writing one key of the defaultdict leaves every other key's entry
unchanged. -/
theorem lookupTally_setTally_ne (l : List (String × AgencyTally)) (a b : String)
    (t : AgencyTally) (h : b ≠ a) :
    lookupTally (setTally l a t) b = lookupTally l b := by
  induction l with
  | nil =>
    have hab : ¬ a = b := fun hh => h hh.symm
    simp [setTally, lookupTally, hab]
  | cons hd tl ih =>
    obtain ⟨k, v⟩ := hd
    have hab : ¬ a = b := fun hh => h hh.symm
    by_cases hk : k = a
    · simp [setTally, lookupTally, hk, hab]
    · by_cases hb : k = b
      · simp [setTally, lookupTally, hk, hb, h]
      · simp [setTally, lookupTally, hk, hb, ih]

/-- Writing to the defaultdict never removes a key. -/
theorem mem_keys_setTally (l : List (String × AgencyTally)) (a b : String)
    (t : AgencyTally) (h : b ∈ l.map Prod.fst) :
    b ∈ (setTally l a t).map Prod.fst := by
  induction l with
  | nil => simp at h
  | cons hd tl ih =>
    obtain ⟨k, v⟩ := hd
    by_cases hk : k = a
    · simp only [setTally, if_pos hk, List.map_cons, List.mem_cons] at h ⊢
      exact h
    · simp only [setTally, if_neg hk, List.map_cons, List.mem_cons] at h ⊢
      rcases h with hb | hb
      · exact Or.inl hb
      · exact Or.inr (ih hb)

/-- The tally read back after `add_domain_result`: the updated entry at the
record's own agency, the old entry everywhere else. -/
theorem lookupTally_add (st : VdpScanner) (r : DomainResult) (a : String) :
    lookupTally (add_domain_result st r).agency_results a =
      if a = r.agency then
        updateTally r (lookupTally st.agency_results r.agency)
      else lookupTally st.agency_results a := by
  by_cases h : a = r.agency
  · subst h
    simp [add_domain_result, lookupTally_setTally_self]
  · simp [add_domain_result, h, lookupTally_setTally_ne _ _ _ _ h]

/-- The per-agency counter invariant: all five counters non-negative and
each conditional counter bounded by the total. -/
def TallyInv (t : AgencyTally) : Prop :=
  0 ≤ t.total_domains ∧ 0 ≤ t.security_contact_listed ∧ 0 ≤ t.organization_listed ∧
  0 ≤ t.matching_org_agency ∧ 0 ≤ t.published_vdp ∧
  t.security_contact_listed ≤ t.total_domains ∧
  t.organization_listed ≤ t.total_domains ∧
  t.matching_org_agency ≤ t.total_domains ∧
  t.published_vdp ≤ t.total_domains

/-- The zeroed tally satisfies the invariant. -/
theorem tallyInv_zero : TallyInv zeroTally := by
  refine ⟨le_refl 0, le_refl 0, le_refl 0, le_refl 0, le_refl 0, ?_, ?_, ?_, ?_⟩ <;>
    exact le_refl 0

/-- The five guarded increments preserve the invariant. -/
theorem tallyInv_update (r : DomainResult) (t : AgencyTally) (h : TallyInv t) :
    TallyInv (updateTally r t) := by
  obtain ⟨h1, h2, h3, h4, h5, h6, h7, h8, h9⟩ := h
  unfold TallyInv updateTally
  refine ⟨?_, ?_, ?_, ?_, ?_, ?_, ?_, ?_, ?_⟩ <;> dsimp only <;> omega

/-- Folding any sequence of `add_domain_result` calls preserves the
invariant at every agency key. -/
theorem tallyInv_foldl (rs : List DomainResult) :
    ∀ st : VdpScanner, (∀ a, TallyInv (lookupTally st.agency_results a)) →
      ∀ a, TallyInv (lookupTally (rs.foldl add_domain_result st).agency_results a) := by
  induction rs with
  | nil => intro st h a; exact h a
  | cons r rest ih =>
    intro st h a
    refine ih (add_domain_result st r) ?_ a
    intro b
    rw [lookupTally_add]
    by_cases hb : b = r.agency
    · simp only [hb, if_pos rfl]
      exact tallyInv_update r _ (h r.agency)
    · simp only [if_neg hb]
      exact h b

/-- Every key of a fresh scanner reads back as the zeroed tally. -/
theorem lookupTally_init (a : String) :
    lookupTally initScanner.agency_results a = zeroTally := rfl

/-- A chain result only ever comes from a successful `hash_url` call. -/
theorem vdp_chain_result_ok (hash_url : FetchClient) (d : String) (r : UrlResult)
    (h : (vdp_chain hash_url d).1 = some r) :
    ∃ url v, hash_url url v = Except.ok r := by
  cases h1 : hash_url (httpsUrl d) true with
  | ok r1 =>
    refine ⟨httpsUrl d, true, ?_⟩
    simp [vdp_chain, h1] at h
    subst h
    exact h1
  | error e1 =>
    cases e1 with
    | tls =>
      cases h2 : hash_url (httpsUrl d) false with
      | ok r2 =>
        refine ⟨httpsUrl d, false, ?_⟩
        simp [vdp_chain, h1, h2] at h
        subst h
        exact h2
      | error e2 =>
        cases h3 : hash_url (httpUrl d) true with
        | ok r3 =>
          refine ⟨httpUrl d, true, ?_⟩
          cases e2 <;> simp [vdp_chain, h1, h2, h3] at h <;> subst h <;> exact h3
        | error e3 =>
          exfalso
          cases e2 <;> cases e3 <;> simp [vdp_chain, h1, h2, h3] at h
    | conn =>
      cases h3 : hash_url (httpUrl d) true with
      | ok r3 =>
        refine ⟨httpUrl d, true, ?_⟩
        simp [vdp_chain, h1, h3] at h
        subst h
        exact h3
      | error e3 => exfalso; simp [vdp_chain, h1, h3] at h
    | timeout =>
      cases h3 : hash_url (httpUrl d) true with
      | ok r3 =>
        refine ⟨httpUrl d, true, ?_⟩
        simp [vdp_chain, h1, h3] at h
        subst h
        exact h3
      | error e3 => exfalso; simp [vdp_chain, h1, h3] at h
    | other => exfalso; simp [vdp_chain, h1] at h

/-! ### Claims -/

/-- Claim C1: for every domain name and every behavior of the fetch client,
`check_for_vdp` always returns a well-formed 4-tuple — either the
all-empty/false outcome or the status mapping of some fetch result — and
when all three fetchable stages (HTTPS verified, HTTPS unverified, plain
HTTP) fail, it returns the all-empty/false outcome `("", false, false, "")`.
In the embedding the function is total, so no exception can propagate. -/
theorem claim_c1_never_raises (hash_url : FetchClient) (d : String) :
    (check_for_vdp hash_url d = emptyOutcome ∨
      ∃ r : UrlResult, check_for_vdp hash_url d = statusOutcome r) ∧
    ((∃ e, hash_url (httpsUrl d) true = Except.error e) →
     (∃ e, hash_url (httpsUrl d) false = Except.error e) →
     (∃ e, hash_url (httpUrl d) true = Except.error e) →
     check_for_vdp hash_url d = emptyOutcome) := by
  constructor
  · rcases hc : vdp_chain hash_url d with ⟨ro, lg, cs⟩
    cases ro with
    | none => exact Or.inl (by simp [check_for_vdp, check_for_vdp_run, hc])
    | some r => exact Or.inr ⟨r, by simp [check_for_vdp, check_for_vdp_run, hc]⟩
  · rintro ⟨e1, h1⟩ ⟨e2, h2⟩ ⟨e3, h3⟩
    cases e1 <;> cases e2 <;> cases e3 <;>
      simp [check_for_vdp, check_for_vdp_run, vdp_chain, h1, h2, h3]

/-- Witness for C1: a client failing every call with a connection error
yields the all-empty/false outcome. -/
theorem claim_c1_never_raises_witness :
    check_for_vdp allFailClient "unreachable.gov" = emptyOutcome :=
  (claim_c1_never_raises allFailClient "unreachable.gov").2
    ⟨FetchError.conn, rfl⟩ ⟨FetchError.conn, rfl⟩ ⟨FetchError.conn, rfl⟩

/-- Claim C2: if the HTTPS fetch with TLS verification fails with a TLS
error and the HTTPS fetch without verification succeeds, the outcome is the
status mapping of the unverified result, exactly the two HTTPS calls are
performed, and no plain-HTTP fetch happens. -/
theorem claim_c2_tls_fallback_no_http (hash_url : FetchClient) (d : String)
    (r : UrlResult)
    (h1 : hash_url (httpsUrl d) true = Except.error FetchError.tls)
    (h2 : hash_url (httpsUrl d) false = Except.ok r) :
    check_for_vdp hash_url d = statusOutcome r ∧
    (check_for_vdp_run hash_url d).2.2 = [(httpsUrl d, true), (httpsUrl d, false)] ∧
    ∀ v, (httpUrl d, v) ∉ (check_for_vdp_run hash_url d).2.2 := by
  have hrun : check_for_vdp_run hash_url d =
      (statusOutcome r, [LogEvent.warnFallbackUnverified d],
       [(httpsUrl d, true), (httpsUrl d, false)]) := by
    simp [check_for_vdp_run, vdp_chain, h1, h2]
  refine ⟨?_, ?_, ?_⟩
  · simp [check_for_vdp, hrun]
  · simp [hrun]
  · intro v hv
    rw [hrun] at hv
    simp only [List.mem_cons, List.not_mem_nil, or_false, Prod.mk.injEq] at hv
    rcases hv with ⟨hu, _⟩ | ⟨hu, _⟩ <;> exact httpUrl_ne_httpsUrl d hu

/-- Witness for C2: a client with a TLS failure on verified HTTPS and a
status-200 unverified result. -/
theorem claim_c2_tls_fallback_no_http_witness :
    check_for_vdp tlsThenOkClient "nocert.gov" =
      statusOutcome ⟨"https://nocert.gov/vulnerability-disclosure-policy", false, 200, "h2"⟩ :=
  (claim_c2_tls_fallback_no_http tlsThenOkClient "nocert.gov"
    ⟨"https://nocert.gov/vulnerability-disclosure-policy", false, 200, "h2"⟩
    rfl rfl).1

/-- Claim C3: if the first HTTPS fetch fails with a connection failure or a
timeout (not a TLS error), the chain goes directly to exactly one plain-HTTP
fetch — never attempting HTTPS with verification disabled; a successful HTTP
attempt yields its status mapping, a failing one the all-empty/false
outcome. -/
theorem claim_c3_conn_goes_to_http (hash_url : FetchClient) (d : String)
    (e : FetchError)
    (h1 : hash_url (httpsUrl d) true = Except.error e)
    (he : e = FetchError.conn ∨ e = FetchError.timeout) :
    (check_for_vdp_run hash_url d).2.2 = [(httpsUrl d, true), (httpUrl d, true)] ∧
    (httpsUrl d, false) ∉ (check_for_vdp_run hash_url d).2.2 ∧
    (∀ r : UrlResult, hash_url (httpUrl d) true = Except.ok r →
      check_for_vdp hash_url d = statusOutcome r) ∧
    (∀ e2 : FetchError, hash_url (httpUrl d) true = Except.error e2 →
      check_for_vdp hash_url d = emptyOutcome) := by
  have hcalls : (check_for_vdp_run hash_url d).2.2 =
      [(httpsUrl d, true), (httpUrl d, true)] := by
    rcases he with he | he <;> subst he <;>
      cases h3 : hash_url (httpUrl d) true <;>
        simp [check_for_vdp_run, vdp_chain, h1, h3]
  refine ⟨hcalls, ?_, ?_, ?_⟩
  · intro hv
    rw [hcalls] at hv
    simp only [List.mem_cons, List.not_mem_nil, or_false, Prod.mk.injEq] at hv
    rcases hv with ⟨_, hb⟩ | ⟨hu, _⟩
    · exact Bool.false_ne_true hb
    · exact httpUrl_ne_httpsUrl d hu.symm
  · intro r h3
    rcases he with he | he <;> subst he <;>
      simp [check_for_vdp, check_for_vdp_run, vdp_chain, h1, h3]
  · intro e2 h3
    rcases he with he | he <;> subst he <;>
      simp [check_for_vdp, check_for_vdp_run, vdp_chain, h1, h3]

/-- Witness for C3: a client that is unreachable over HTTPS and serves a
404 over plain HTTP. -/
theorem claim_c3_conn_goes_to_http_witness :
    check_for_vdp connFallbackClient "plain.gov" =
      statusOutcome ⟨"http://plain.gov/vulnerability-disclosure-policy", false, 404, "h4"⟩ :=
  ((claim_c3_conn_goes_to_http connFallbackClient "plain.gov" FetchError.conn
      (by simp [connFallbackClient, Ne.symm (httpUrl_ne_httpsUrl "plain.gov")])
      (Or.inl rfl)).2.2.1)
    ⟨"http://plain.gov/vulnerability-disclosure-policy", false, 404, "h4"⟩
    (by simp [connFallbackClient])

/-- Claim C4: at every terminal success of the chain, status exactly 200
yields `(visited_url, is_redirect, true, hash)` and any other status value
yields `(visited_url, is_redirect, false, "")`. -/
theorem claim_c4_status_mapping (hash_url : FetchClient) (d : String)
    (r : UrlResult) (h : (vdp_chain hash_url d).1 = some r) :
    (r.status = 200 →
      check_for_vdp hash_url d = (r.visited_url, r.is_redirect, true, r.hash)) ∧
    (r.status ≠ 200 →
      check_for_vdp hash_url d = (r.visited_url, r.is_redirect, false, "")) := by
  rcases hc : vdp_chain hash_url d with ⟨ro, lg, cs⟩
  rw [hc] at h
  simp only at h
  subst h
  constructor <;> intro hs <;>
    simp [check_for_vdp, check_for_vdp_run, hc, statusOutcome, hs]

/-- Witness for C4: a client returning status 200 yields the positive
outcome with its hash. -/
theorem claim_c4_status_mapping_witness :
    check_for_vdp goodClient "example.gov" =
      ("https://example.gov/vulnerability-disclosure-policy", false, true, "abc123") :=
  (claim_c4_status_mapping goodClient "example.gov" goodResult rfl).1 rfl

/-- Claim C5 counterexample: the claimed invariant quantifies over any
fetch-client behavior, but a client returning a status-200 result whose
visited URL is the empty string makes `check_for_vdp` return an outcome
with `vdpPresent = true` and `visitedUrl = ""`. -/
theorem claim_c5_counterexample :
    (check_for_vdp badUrlClient "example.gov").2.2.1 = true ∧
    (check_for_vdp badUrlClient "example.gov").1 = "" := ⟨rfl, rfl⟩

/-- Claim C5 (amended): for every outcome of `check_for_vdp`, a non-empty
`contentHash` implies `vdpPresent`; and provided every successful result the
fetch client returns carries a non-empty visited URL, `vdpPresent` implies a
non-empty `visitedUrl`. -/
theorem claim_c5_outcome_invariant (hash_url : FetchClient) (d : String) :
    ((check_for_vdp hash_url d).2.2.2 ≠ "" →
      (check_for_vdp hash_url d).2.2.1 = true) ∧
    ((∀ url v r, hash_url url v = Except.ok r → r.visited_url ≠ "") →
      (check_for_vdp hash_url d).2.2.1 = true →
      (check_for_vdp hash_url d).1 ≠ "") := by
  rcases hc : vdp_chain hash_url d with ⟨ro, lg, cs⟩
  cases ro with
  | none =>
    constructor
    · intro hh
      exfalso
      exact hh (by simp [check_for_vdp, check_for_vdp_run, hc, emptyOutcome])
    · intro _ hp
      exfalso
      have : (check_for_vdp hash_url d).2.2.1 = false := by
        simp [check_for_vdp, check_for_vdp_run, hc, emptyOutcome]
      rw [hp] at this
      exact Bool.noConfusion this
  | some r =>
    have hck : check_for_vdp hash_url d = statusOutcome r := by
      simp [check_for_vdp, check_for_vdp_run, hc]
    by_cases hs : r.status = 200
    · constructor
      · intro _
        simp [hck, statusOutcome, hs]
      · intro hcl _
        have hok := vdp_chain_result_ok hash_url d r (by rw [hc])
        obtain ⟨url, v, hok⟩ := hok
        have hne := hcl url v r hok
        simp [hck, statusOutcome, hs]
        exact hne
    · constructor
      · intro hh
        exfalso
        exact hh (by simp [hck, statusOutcome, hs])
      · intro _ hp
        exfalso
        have : (check_for_vdp hash_url d).2.2.1 = false := by
          simp [hck, statusOutcome, hs]
        rw [hp] at this
        exact Bool.noConfusion this

/-- Witness for C5: with a well-behaved client the positive outcome has a
non-empty visited URL. -/
theorem claim_c5_outcome_invariant_witness :
    (check_for_vdp goodClient "example.gov").1 ≠ "" :=
  (claim_c5_outcome_invariant goodClient "example.gov").2
    (fun url v r h => by
      injection h with h'
      rw [← h']
      decide)
    rfl

/-- Claim C6: one `add_domain_result` call increments, in the record's own
agency tally, exactly: total domains always; security contact listed iff
the field is non-empty and differs from the sentinel "(blank)";
organization listed iff the organization is non-empty; organization matches
agency iff organization equals agency exactly; VDP published iff the
outcome's `vdpPresent`. -/
theorem claim_c6_tally_increments (st : VdpScanner) (r : DomainResult) :
    (lookupTally (add_domain_result st r).agency_results r.agency).total_domains =
      (lookupTally st.agency_results r.agency).total_domains + 1 ∧
    (lookupTally (add_domain_result st r).agency_results r.agency).security_contact_listed =
      (lookupTally st.agency_results r.agency).security_contact_listed +
        (if r.security_contact ≠ "" ∧ r.security_contact ≠ "(blank)" then 1 else 0) ∧
    (lookupTally (add_domain_result st r).agency_results r.agency).organization_listed =
      (lookupTally st.agency_results r.agency).organization_listed +
        (if r.organization ≠ "" then 1 else 0) ∧
    (lookupTally (add_domain_result st r).agency_results r.agency).matching_org_agency =
      (lookupTally st.agency_results r.agency).matching_org_agency +
        (if r.organization = r.agency then 1 else 0) ∧
    (lookupTally (add_domain_result st r).agency_results r.agency).published_vdp =
      (lookupTally st.agency_results r.agency).published_vdp +
        (if r.vdp_present then 1 else 0) := by
  have h : lookupTally (add_domain_result st r).agency_results r.agency =
      updateTally r (lookupTally st.agency_results r.agency) := by
    simp [add_domain_result, lookupTally_setTally_self]
  rw [h]
  refine ⟨rfl, ?_, rfl, ?_, rfl⟩
  · simp [updateTally, MISSING_SECURITY_CONTACT]
  · by_cases hm : r.agency = r.organization
    · simp [updateTally, hm]
    · have hm' : ¬ r.organization = r.agency := fun hh => hm hh.symm
      simp [updateTally, hm, hm']

/-- Claim C7: after any finite sequence of `add_domain_result` calls from a
fresh scanner, every agency's tally has non-negative counters and each
conditional counter bounded by the total. -/
theorem claim_c7_counter_consistency (rs : List DomainResult) (a : String) :
    0 ≤ (lookupTally (runAdds rs).agency_results a).total_domains ∧
    0 ≤ (lookupTally (runAdds rs).agency_results a).security_contact_listed ∧
    0 ≤ (lookupTally (runAdds rs).agency_results a).organization_listed ∧
    0 ≤ (lookupTally (runAdds rs).agency_results a).matching_org_agency ∧
    0 ≤ (lookupTally (runAdds rs).agency_results a).published_vdp ∧
    (lookupTally (runAdds rs).agency_results a).security_contact_listed ≤
      (lookupTally (runAdds rs).agency_results a).total_domains ∧
    (lookupTally (runAdds rs).agency_results a).organization_listed ≤
      (lookupTally (runAdds rs).agency_results a).total_domains ∧
    (lookupTally (runAdds rs).agency_results a).matching_org_agency ≤
      (lookupTally (runAdds rs).agency_results a).total_domains ∧
    (lookupTally (runAdds rs).agency_results a).published_vdp ≤
      (lookupTally (runAdds rs).agency_results a).total_domains :=
  tallyInv_foldl rs initScanner
    (fun b => by rw [lookupTally_init b]; exact tallyInv_zero) a

/-- Claim C8 counterexample: with a client that fails every call with a
connection error, every attempted stage of the chain raises, the outcome is
the all-empty/false one, but two warning-level log lines are emitted for the
domain (the HTTP-fallback notice and the retrieval-failure warning), not
exactly one. -/
theorem claim_c8_counterexample :
    check_for_vdp allFailClient "unreachable.gov" = emptyOutcome ∧
    ((check_for_vdp_run allFailClient "unreachable.gov").2.1.filter
      LogEvent.isWarningLevel).length = 2 := ⟨rfl, rfl⟩

/-- Claim C8 (amended): when every attemptable stage of the chain fails,
`check_for_vdp` returns the all-empty/false outcome and the retrieval
failure warning of `_log_vdp_failure` is logged exactly once for the domain
(fallback-notice warnings may be logged in addition). -/
theorem claim_c8_exhausted_logs_failure_once (hash_url : FetchClient) (d : String)
    (h1 : ∃ e, hash_url (httpsUrl d) true = Except.error e)
    (h2 : ∃ e, hash_url (httpsUrl d) false = Except.error e)
    (h3 : ∃ e, hash_url (httpUrl d) true = Except.error e) :
    check_for_vdp hash_url d = emptyOutcome ∧
    ((check_for_vdp_run hash_url d).2.1.filter LogEvent.isRetrieveFailure).length = 1 := by
  obtain ⟨e1, h1⟩ := h1
  obtain ⟨e2, h2⟩ := h2
  obtain ⟨e3, h3⟩ := h3
  cases e1 <;> cases e2 <;> cases e3 <;>
    simp [check_for_vdp, check_for_vdp_run, vdp_chain, h1, h2, h3, log_vdp_failure,
      LogEvent.isRetrieveFailure, LogEvent.isWarningLevel, List.filter]

/-- Witness for C8: the all-conn-failing client at a concrete domain. -/
theorem claim_c8_exhausted_logs_failure_once_witness :
    check_for_vdp allFailClient "unreachable.gov" = emptyOutcome ∧
    ((check_for_vdp_run allFailClient "unreachable.gov").2.1.filter
      LogEvent.isRetrieveFailure).length = 1 :=
  claim_c8_exhausted_logs_failure_once allFailClient "unreachable.gov"
    ⟨FetchError.conn, rfl⟩ ⟨FetchError.conn, rfl⟩ ⟨FetchError.conn, rfl⟩

/-- Claim C9: one `add_domain_result` call appends exactly one row at the
end of the ordered result sequence (leaving prior rows unchanged), leaves
every other agency's tally unchanged, and removes no agency key from the
mapping. -/
theorem claim_c9_frame (st : VdpScanner) (r : DomainResult) :
    (add_domain_result st r).domain_results = st.domain_results ++ [r] ∧
    (∀ a, a ≠ r.agency →
      lookupTally (add_domain_result st r).agency_results a =
        lookupTally st.agency_results a) ∧
    (∀ a, a ∈ st.agency_results.map Prod.fst →
      a ∈ (add_domain_result st r).agency_results.map Prod.fst) := by
  refine ⟨rfl, ?_, ?_⟩
  · intro a ha
    exact lookupTally_setTally_ne st.agency_results r.agency a _ ha
  · intro a ha
    exact mem_keys_setTally st.agency_results r.agency a _ ha

/-- Witness for C9: adding a record for agency "ACME" leaves the tally read
at agency "Other" unchanged. -/
theorem claim_c9_frame_witness :
    lookupTally (add_domain_result initScanner sampleRec).agency_results "Other" =
      lookupTally initScanner.agency_results "Other" :=
  (claim_c9_frame initScanner sampleRec).2.1 "Other" (by decide)

/-- Claim C10: the matching-organization counter is incremented whenever
agency equals organization, with no non-emptiness requirement; in
particular a record whose agency and organization are both empty increments
it while leaving "organization listed" at zero, so it can strictly exceed
"organization listed". -/
theorem claim_c10_match_without_nonempty (st : VdpScanner) (r : DomainResult) :
    (r.organization = r.agency →
      (lookupTally (add_domain_result st r).agency_results r.agency).matching_org_agency =
        (lookupTally st.agency_results r.agency).matching_org_agency + 1) ∧
    (lookupTally (runAdds [emptyAgencyRec]).agency_results "").matching_org_agency = 1 ∧
    (lookupTally (runAdds [emptyAgencyRec]).agency_results "").organization_listed = 0 := by
  refine ⟨?_, rfl, rfl⟩
  intro hm
  have h : lookupTally (add_domain_result st r).agency_results r.agency =
      updateTally r (lookupTally st.agency_results r.agency) := by
    simp [add_domain_result, lookupTally_setTally_self]
  rw [h]
  simp [updateTally, hm.symm]

/-- Witness for C10: the record with empty agency and organization
increments the matching counter. -/
theorem claim_c10_match_without_nonempty_witness :
    (lookupTally (add_domain_result initScanner emptyAgencyRec).agency_results
      emptyAgencyRec.agency).matching_org_agency =
      (lookupTally initScanner.agency_results emptyAgencyRec.agency).matching_org_agency + 1 :=
  (claim_c10_match_without_nonempty initScanner emptyAgencyRec).1 rfl
